import Mathlib

/-!
Verification development for the upper-buttons component of
angular-modal-gallery (file
src/angular-modal-gallery/src/components/upper-buttons/upper-buttons.component.ts).

The component resolves a declarative buttons strategy to an ordered button
list, stamps each rendered button with a positional id via a shallow copy,
and routes pointer/keyboard activation events to one of six typed output
channels.

Objects and shallow copies are modelled with an explicit heap: button
descriptor objects and size objects live in indexed lists, and the
object-valued `size` field of a descriptor is a reference (an index) into
the size list, so that sharing and shallow copying are observable.
-/

set_option autoImplicit false

/-- Modelled from the spec: the ButtonType enumeration from
buttons-config.interface.ts (not under src/), a closed enumeration
{CLOSE, DOWNLOAD, DELETE, REFRESH, EXTURL, CUSTOM}; the extra
constructor `unknown` stands for the explicit "unknown" sentinel, the
value outside the six declared members that the spec says is rejected by
validation and by dispatch. -/
inductive ButtonType where
  | REFRESH
  | DELETE
  | EXTURL
  | DOWNLOAD
  | CLOSE
  | CUSTOM
  | unknown
  deriving DecidableEq, Repr, Inhabited

/-- Modelled from the spec: the ButtonsStrategy enumeration from
buttons-config.interface.ts (not under src/):
enum {DEFAULT, SIMPLE, ADVANCED, FULL, CUSTOM}; the extra constructor
`unrecognized` stands for any value outside the five declared members,
which the spec says falls back to the DEFAULT list. -/
inductive ButtonsStrategy where
  | DEFAULT
  | SIMPLE
  | ADVANCED
  | FULL
  | CUSTOM
  | unrecognized
  deriving DecidableEq, Repr, Inhabited

/-- Modelled from the spec: WHITELIST_BUTTON_TYPES from
buttons-config.interface.ts (not under src/): the whitelist of permitted
types for CUSTOM validation, holding every declared ButtonType (CUSTOM
included) and excluding the "unknown" sentinel. -/
def WHITELIST_BUTTON_TYPES : List ButtonType :=
  [ButtonType.CLOSE, ButtonType.DOWNLOAD, ButtonType.DELETE,
   ButtonType.REFRESH, ButtonType.EXTURL, ButtonType.CUSTOM]

/-- ButtonSize from the data model: height, width and a unit string. -/
structure ButtonSize where
  height : Nat
  width : Nat
  unit : String
  deriving DecidableEq, Repr, Inhabited

/-- A button descriptor object (ButtonConfig / InternalButtonConfig).
The `sizeRef` field is a reference (heap index) to a ButtonSize object,
because in the source the `size` field holds an object reference and the
copy made by addButtonIds is shallow. The optional `id` field is the
positional id of InternalButtonConfig, absent before stamping. -/
structure BtnObj where
  className : String
  sizeRef : Nat
  type : ButtonType
  title : String
  ariaLabel : String
  id : Option Nat
  deriving DecidableEq, Repr, Inhabited

/-- The explicit heap: size objects and button descriptor objects,
addressed by their index. -/
structure Heap where
  sizes : List ButtonSize
  btns : List BtnObj
  deriving DecidableEq, Repr, Inhabited

/-- Reads the button object a reference points at. -/
def Heap.btnAt (h : Heap) (r : Nat) : BtnObj :=
  h.btns.getD r default

/-- Reads the size object seen through the sizeRef of the button a
reference points at. -/
def Heap.sizeThrough (h : Heap) (r : Nat) : ButtonSize :=
  h.sizes.getD (h.btnAt r).sizeRef default

/-- Heap mutation: assigns the top-level id field of the button object at
a reference (the JS statement btn.id = i on an existing object). -/
def heapSetId (h : Heap) (r : Nat) (v : Option Nat) : Heap :=
  { h with btns := h.btns.set r { h.btns.getD r default with id := v } }

/-- Heap mutation: assigns the height field of the size object at a
reference, i.e. a nested mutation through a descriptor. -/
def heapSetSizeHeight (h : Heap) (sr : Nat) (v : Nat) : Heap :=
  { h with sizes := h.sizes.set sr { h.sizes.getD sr default with height := v } }

/-- ButtonsConfig: a strategy (absent models the missing field the
mandatory-field check guards against) and an optional caller-supplied
list of button object references. -/
structure ButtonsConfig where
  strategy : Option ButtonsStrategy
  buttons : Option (List Nat)
  deriving DecidableEq, Repr, Inhabited

/-- Modelled from the spec: the Image entity (image.class.ts, not under
src/); the component reads only its external-URL field, which may be
absent or empty. -/
structure Image where
  extUrl : Option String
  deriving DecidableEq, Repr, Inhabited

/-- The configuration errors the component throws: the missing-strategy
error of ngOnInit, the invalid-custom-type error of initCustomButtons,
and the unknown-type error of the onEvent dispatch. -/
inductive ConfigError where
  | strategyMandatory
  | unknownCustomType
  | unknownButtonType
  deriving DecidableEq, Repr, Inhabited

/-- The six output channels of the component. -/
inductive Channel where
  | refresh
  | delete
  | navigate
  | download
  | close
  | customEmit
  deriving DecidableEq, Repr, Inhabited

/-- The payload of a ButtonEvent: a boolean flag on every channel except
navigate, the external URL string on navigate. -/
inductive Payload where
  | flag (b : Bool)
  | url (s : String)
  deriving DecidableEq, Repr, Inhabited

/-- ButtonEvent: the outbound message {index, button, payload}. -/
structure ButtonEvent where
  index : Nat
  button : BtnObj
  payload : Payload
  deriving DecidableEq, Repr, Inhabited

/-- Modelled from the spec: the event classification of the external
input-normalization collaborator (AccessibleComponent and
user-input.util, not under src/): the two recognized abstract actions
are "activate" and "other". -/
inductive RawEvent where
  | activate
  | other
  deriving DecidableEq, Repr, Inhabited

/-- Modelled from the spec: the NEXT sentinel of user-input.util (not
under src/), the numeric result meaning the event is an activation. -/
def NEXT : Nat := 1

/-- Modelled from the spec: AccessibleComponent.handleImageEvent (not
under src/) classifies a raw event; per the spec only "activate"
(primary click or Enter/Space) yields the activation result NEXT. -/
def handleImageEvent : RawEvent → Nat
  | RawEvent.activate => NEXT
  | RawEvent.other => 0

/-- Presence flags for the six output channel objects. Under normal
construction every emitter exists; a missing one models the defensive
branch of triggerOnMouseAndKeyboard. -/
structure Emitters where
  refresh : Bool
  delete : Bool
  navigate : Bool
  download : Bool
  close : Bool
  customEmit : Bool
  deriving DecidableEq, Repr, Inhabited

/-- The normal component state: all six emitters constructed. -/
def allPresent : Emitters :=
  ⟨true, true, true, true, true, true⟩

/-- Outcome of triggerOnMouseAndKeyboard: an emission on a channel, no
emission, or a thrown TypeError (calling emit on a missing emitter);
`logged` records whether the diagnostic was printed. -/
inductive TriggerResult where
  | emitted (logged : Bool) (ch : Channel) (ev : ButtonEvent)
  | noEmission (logged : Bool)
  | thrown (logged : Bool)
  deriving DecidableEq, Repr, Inhabited

/-- Embedding of UpperButtonsComponent.triggerOnMouseAndKeyboard: logs
when the emitter is missing, builds the ButtonEvent, classifies the
event, and when the result is NEXT calls emit on the emitter — which in
JS throws a TypeError when the emitter is missing. `ch` is the identity
of the channel the emitter argument refers to and `emitterPresent`
whether that emitter object exists. -/
def triggerOnMouseAndKeyboard (ch : Channel) (emitterPresent : Bool)
    (event : RawEvent) (btnSource : BtnObj) (btnIndex : Nat)
    (data : Payload) : TriggerResult :=
  let logged := !emitterPresent
  let dataToEmit : ButtonEvent := ⟨btnIndex, btnSource, data⟩
  let result : Nat := handleImageEvent event
  if result = NEXT then
    if emitterPresent then TriggerResult.emitted logged ch dataToEmit
    else TriggerResult.thrown logged
  else TriggerResult.noEmission logged

/-- Outcome of an onEvent call: an early return with nothing done, the
outcome of the selected trigger, or a thrown configuration error. -/
inductive OnEventResult where
  | noop
  | triggered (r : TriggerResult)
  | configError (e : ConfigError)
  deriving DecidableEq, Repr, Inhabited

/-- The emissions an onEvent outcome delivers: at most one
(channel, ButtonEvent) pair. -/
def OnEventResult.emissions : OnEventResult → List (Channel × ButtonEvent)
  | OnEventResult.triggered (TriggerResult.emitted _ ch ev) => [(ch, ev)]
  | _ => []

/-- Embedding of UpperButtonsComponent.onEvent: returns on a null event,
then switches on the declared type of the button, gating EXTURL on a
usable external URL and throwing on a type outside the six members. -/
def onEvent (em : Emitters) (image : Option Image) (button : BtnObj)
    (index : Nat) (event : Option RawEvent) : OnEventResult :=
  match event with
  | none => OnEventResult.noop
  | some e =>
    match button.type with
    | ButtonType.REFRESH =>
        OnEventResult.triggered
          (triggerOnMouseAndKeyboard Channel.refresh em.refresh e button index (Payload.flag true))
    | ButtonType.DELETE =>
        OnEventResult.triggered
          (triggerOnMouseAndKeyboard Channel.delete em.delete e button index (Payload.flag true))
    | ButtonType.EXTURL =>
        match image with
        | none => OnEventResult.noop
        | some img =>
          match img.extUrl with
          | none => OnEventResult.noop
          | some u =>
            if u = "" then OnEventResult.noop
            else
              OnEventResult.triggered
                (triggerOnMouseAndKeyboard Channel.navigate em.navigate e button index (Payload.url u))
    | ButtonType.DOWNLOAD =>
        OnEventResult.triggered
          (triggerOnMouseAndKeyboard Channel.download em.download e button index (Payload.flag true))
    | ButtonType.CLOSE =>
        OnEventResult.triggered
          (triggerOnMouseAndKeyboard Channel.close em.close e button index (Payload.flag true))
    | ButtonType.CUSTOM =>
        OnEventResult.triggered
          (triggerOnMouseAndKeyboard Channel.customEmit em.customEmit e button index (Payload.flag true))
    | ButtonType.unknown => OnEventResult.configError ConfigError.unknownButtonType

/-- Embedding of UpperButtonsComponent.addButtonIds, unfolded map with
allocation: for each reference, allocates a fresh shallow copy of the
pointed-at object with its id field overwritten by the position, and
returns the extended heap with the list of fresh references. -/
def addButtonIdsGo (h : Heap) (i : Nat) : List Nat → Heap × List Nat
  | [] => (h, [])
  | r :: rs =>
    let btn : BtnObj := { h.btns.getD r default with id := some i }
    let h2 : Heap := { h with btns := h.btns ++ [btn] }
    let rest := addButtonIdsGo h2 (i + 1) rs
    (rest.1, h.btns.length :: rest.2)

/-- Embedding of UpperButtonsComponent.addButtonIds: maps the input
references to stamped shallow copies, starting the positional ids at 0. -/
def addButtonIds (h : Heap) (refs : List Nat) : Heap × List Nat :=
  addButtonIdsGo h 0 refs

/-- Embedding of UpperButtonsComponent.initCustomButtons: defaults the
buttons list to empty, validates every entry against
WHITELIST_BUTTON_TYPES, throwing on a type not found there, and returns
the caller-supplied list itself. -/
def initCustomButtons (h : Heap) (buttonsConfig : ButtonsConfig) :
    Except ConfigError (List Nat) :=
  let btns := buttonsConfig.buttons.getD []
  if btns.all (fun r => WHITELIST_BUTTON_TYPES.contains (h.btnAt r).type) then
    Except.ok btns
  else
    Except.error ConfigError.unknownCustomType

/-- The shared defaultSize object {height 30, width 30, unit px}: the
single size object every built-in default button references. -/
def defaultSize : ButtonSize := ⟨30, 30, "px"⟩

/-- The close default button object; its sizeRef points at the shared
defaultSize object at address 0. -/
def closeBtnObj : BtnObj :=
  ⟨"close-image", 0, ButtonType.CLOSE,
   "Close this modal image gallery", "Close this modal image gallery", none⟩

/-- The download default button object. -/
def downloadBtnObj : BtnObj :=
  ⟨"download-image", 0, ButtonType.DOWNLOAD,
   "Download the current image", "Download the current image", none⟩

/-- The external-url default button object. -/
def exturlBtnObj : BtnObj :=
  ⟨"ext-url-image", 0, ButtonType.EXTURL,
   "Navigate the current image", "Navigate the current image", none⟩

/-- The refresh default button object. -/
def refreshBtnObj : BtnObj :=
  ⟨"refresh-image", 0, ButtonType.REFRESH,
   "Refresh all images", "Refresh all images", none⟩

/-- The delete default button object. -/
def deleteBtnObj : BtnObj :=
  ⟨"delete-image", 0, ButtonType.DELETE,
   "Delete the current image", "Delete the current image", none⟩

/-- The heap as the field initializers of the component build it: one
shared size object, and the five default button objects in allocation
order (close, download, exturl, refresh, delete). The literal arrays
spread the earlier arrays, so they share these objects by reference. -/
def initialHeap : Heap :=
  ⟨[defaultSize], [closeBtnObj, downloadBtnObj, exturlBtnObj, refreshBtnObj, deleteBtnObj]⟩

/-- References of defaultButtonsDefault: [close]. -/
def defaultButtonsDefault : List Nat := [0]

/-- References of simpleButtonsDefault: [download, ...default]. -/
def simpleButtonsDefault : List Nat := [1, 0]

/-- References of advancedButtonsDefault: [exturl, ...simple]. -/
def advancedButtonsDefault : List Nat := [2, 1, 0]

/-- References of fullButtonsDefault: [refresh, delete, ...advanced]. -/
def fullButtonsDefault : List Nat := [3, 4, 2, 1, 0]

/-- Embedding of UpperButtonsComponent.ngOnInit: throws when the config
or its strategy is absent, then switches on the strategy, stamping the
matching default list (or the validated custom list) with ids; the
DEFAULT case and the switch default fall through to the default list. -/
def ngOnInit (h : Heap) (buttonsConfig : Option ButtonsConfig) :
    Except ConfigError (Heap × List Nat) :=
  match buttonsConfig with
  | none => Except.error ConfigError.strategyMandatory
  | some cfg =>
    match cfg.strategy with
    | none => Except.error ConfigError.strategyMandatory
    | some s =>
      match s with
      | ButtonsStrategy.SIMPLE => Except.ok (addButtonIds h simpleButtonsDefault)
      | ButtonsStrategy.ADVANCED => Except.ok (addButtonIds h advancedButtonsDefault)
      | ButtonsStrategy.FULL => Except.ok (addButtonIds h fullButtonsDefault)
      | ButtonsStrategy.CUSTOM =>
        match initCustomButtons h cfg with
        | Except.error e => Except.error e
        | Except.ok bs => Except.ok (addButtonIds h bs)
      | ButtonsStrategy.DEFAULT => Except.ok (addButtonIds h defaultButtonsDefault)
      | ButtonsStrategy.unrecognized => Except.ok (addButtonIds h defaultButtonsDefault)

/-- The type sequence of a resolved button list, read through the
resolved heap. -/
def resolvedTypes (h : Heap) (buttonsConfig : Option ButtonsConfig) :
    Except ConfigError (List ButtonType) :=
  (ngOnInit h buttonsConfig).map (fun p => p.2.map (fun r => (p.1.btnAt r).type))

/-! ## Helper lemmas -/

/-- Membership in the whitelist is exactly being one of the six declared
button types, i.e. not the unknown sentinel. -/
theorem whitelist_contains_iff (t : ButtonType) :
    WHITELIST_BUTTON_TYPES.contains t = true ↔ t ≠ ButtonType.unknown := by
  cases t <;> decide

/-- The stamped copies addButtonIdsGo allocates, as a standalone list:
for each reference, the pointed-at object with id overwritten by the
running position. -/
def stampFrom (bs : List BtnObj) (i : Nat) : List Nat → List BtnObj
  | [] => []
  | r :: rs => { bs.getD r default with id := some i } :: stampFrom bs (i + 1) rs

theorem stampFrom_length (bs : List BtnObj) (i : Nat) (rs : List Nat) :
    (stampFrom bs i rs).length = rs.length := by
  induction rs generalizing i with
  | nil => rfl
  | cons r rs ih => simp [stampFrom, ih]

/-- Stamping reads only addresses below the valid bound, so extending the
object list on the right does not change the copies. -/
theorem stampFrom_append_irrel (bs ext : List BtnObj) (i : Nat) (rs : List Nat)
    (hv : ∀ r ∈ rs, r < bs.length) :
    stampFrom (bs ++ ext) i rs = stampFrom bs i rs := by
  induction rs generalizing i with
  | nil => rfl
  | cons r rs ih =>
    have hr : r < bs.length := hv r (List.mem_cons_self r rs)
    simp only [stampFrom]
    rw [List.getD_append bs ext default r hr,
      ih (i + 1) (fun x hx => hv x (List.mem_cons_of_mem r hx))]

theorem stampFrom_getD (bs : List BtnObj) (i j : Nat) (rs : List Nat)
    (hj : j < rs.length) :
    (stampFrom bs i rs).getD j default =
      { bs.getD (rs.getD j 0) default with id := some (i + j) } := by
  induction rs generalizing i j with
  | nil => simp at hj
  | cons r rs ih =>
    cases j with
    | zero => simp [stampFrom]
    | succ j =>
      have hj' : j < rs.length := by simpa using hj
      simp only [stampFrom, List.getD_cons_succ]
      rw [ih (i + 1) j hj']
      have harith : i + 1 + j = i + (j + 1) := by omega
      rw [harith]

/-- Closed form of the allocation loop: the result heap appends the
stamped copies to the untouched original objects, and the returned
references are the fresh addresses in order. -/
theorem addButtonIdsGo_eq (h : Heap) (i : Nat) (rs : List Nat)
    (hv : ∀ r ∈ rs, r < h.btns.length) :
    addButtonIdsGo h i rs =
      ({ h with btns := h.btns ++ stampFrom h.btns i rs },
       (List.range rs.length).map (fun k => k + h.btns.length)) := by
  induction rs generalizing h i with
  | nil => simp [addButtonIdsGo, stampFrom]
  | cons r rs ih =>
    have hr : r < h.btns.length := hv r (List.mem_cons_self r rs)
    have hv' : ∀ x ∈ rs, x < h.btns.length := fun x hx => hv x (List.mem_cons_of_mem r hx)
    set st : BtnObj := { h.btns.getD r default with id := some i } with hst
    have hv2 : ∀ x ∈ rs, x < (h.btns ++ [st]).length := by
      intro x hx
      have := hv' x hx
      simp only [List.length_append, List.length_cons, List.length_nil]
      omega
    simp only [addButtonIdsGo]
    rw [ih { h with btns := h.btns ++ [st] } (i + 1) hv2]
    simp only [Prod.mk.injEq]
    constructor
    · rw [stampFrom_append_irrel h.btns [st] (i + 1) rs hv']
      simp only [stampFrom, ← hst, List.append_assoc, List.singleton_append]
    · simp only [List.length_cons, List.length_append, List.length_nil]
      rw [List.range_succ_eq_map]
      simp only [List.map_cons, List.map_map, Nat.zero_add]
      congr 1
      apply List.map_congr_left
      intro a _
      simp only [Function.comp_apply, Nat.succ_eq_add_one]
      omega

/-- The fresh reference at position i is the old length plus i. -/
theorem addButtonIds_ref (h : Heap) (refs : List Nat) (i : Nat)
    (hv : ∀ r ∈ refs, r < h.btns.length) (hi : i < refs.length) :
    (addButtonIds h refs).2.getD i 0 = i + h.btns.length := by
  rw [addButtonIds, addButtonIdsGo_eq h 0 refs hv]
  rw [List.getD_eq_getElem?_getD, List.getElem?_map, List.getElem?_range hi]
  rfl

/-- The object the fresh reference at position i points at is the
stamped shallow copy of the object the input reference at position i
points at. -/
theorem addButtonIds_btnAt (h : Heap) (refs : List Nat) (i : Nat)
    (hv : ∀ r ∈ refs, r < h.btns.length) (hi : i < refs.length) :
    (addButtonIds h refs).1.btnAt ((addButtonIds h refs).2.getD i 0) =
      { h.btnAt (refs.getD i 0) with id := some i } := by
  rw [addButtonIds_ref h refs i hv hi, addButtonIds, addButtonIdsGo_eq h 0 refs hv]
  simp only [Heap.btnAt]
  rw [List.getD_append_right h.btns (stampFrom h.btns 0 refs) default (i + h.btns.length)
    (by omega)]
  have : i + h.btns.length - h.btns.length = i := by omega
  rw [this, stampFrom_getD h.btns 0 i refs hi]
  simp [Heap.btnAt]

/-- Objects at the input references are untouched by the stamping pass. -/
theorem addButtonIds_preserves (h : Heap) (refs : List Nat) (r : Nat)
    (hv : ∀ x ∈ refs, x < h.btns.length) (hr : r < h.btns.length) :
    (addButtonIds h refs).1.btnAt r = h.btnAt r := by
  rw [addButtonIds, addButtonIdsGo_eq h 0 refs hv]
  simp only [Heap.btnAt]
  rw [List.getD_append h.btns (stampFrom h.btns 0 refs) default r hr]

theorem addButtonIds_length (h : Heap) (refs : List Nat)
    (hv : ∀ r ∈ refs, r < h.btns.length) :
    (addButtonIds h refs).2.length = refs.length := by
  rw [addButtonIds, addButtonIdsGo_eq h 0 refs hv]
  simp

/-- Setting a field of the object at one address leaves every other
address unchanged. -/
theorem heapSetId_btnAt_ne (h : Heap) (a r : Nat) (v : Option Nat) (hne : r ≠ a) :
    (heapSetId h a v).btnAt r = h.btnAt r := by
  simp only [heapSetId, Heap.btnAt]
  rw [List.getD_eq_getElem?_getD, List.getElem?_set_ne (Ne.symm hne),
    ← List.getD_eq_getElem?_getD]

/-! ## Test fixtures -/

/-- A heap with a whitelisted custom button at address 0, an
unknown-typed button at address 1, and a CUSTOM-typed button at
address 2, used as concrete input for witnesses. -/
def customHeap : Heap :=
  ⟨[defaultSize],
   [closeBtnObj,
    { closeBtnObj with className := "mystery", type := ButtonType.unknown },
    { closeBtnObj with className := "my-custom", type := ButtonType.CUSTOM }]⟩

/-- A button descriptor of type CUSTOM for dispatch witnesses. -/
def customBtnObj : BtnObj :=
  ⟨"my-custom-image", 0, ButtonType.CUSTOM, "Custom", "Custom", none⟩

/-- A button descriptor whose type is outside the six enum members. -/
def unknownBtnObj : BtnObj :=
  ⟨"mystery-image", 0, ButtonType.unknown, "Mystery", "Mystery", none⟩

/-- An image carrying a non-empty external URL. -/
def testImage : Image := ⟨some "https://example.com/x"⟩

/-! ## Claim theorems -/

/-- C1: for every ButtonsConfig with a present strategy, initialization
resolves the button list to the fixed ordered type sequence:
SIMPLE gives [DOWNLOAD, CLOSE]; ADVANCED gives [EXTURL, DOWNLOAD,
CLOSE]; FULL gives [REFRESH, DELETE, EXTURL, DOWNLOAD, CLOSE]; DEFAULT
and any strategy outside {SIMPLE, ADVANCED, FULL, CUSTOM} give [CLOSE];
the extra button of each richer strategy is prepended before the poorer
list, not appended. -/
theorem ngOnInit_strategy_type_lists (b : Option (List Nat)) :
    resolvedTypes initialHeap (some ⟨some ButtonsStrategy.SIMPLE, b⟩) =
      Except.ok [ButtonType.DOWNLOAD, ButtonType.CLOSE] ∧
    resolvedTypes initialHeap (some ⟨some ButtonsStrategy.ADVANCED, b⟩) =
      Except.ok [ButtonType.EXTURL, ButtonType.DOWNLOAD, ButtonType.CLOSE] ∧
    resolvedTypes initialHeap (some ⟨some ButtonsStrategy.FULL, b⟩) =
      Except.ok [ButtonType.REFRESH, ButtonType.DELETE, ButtonType.EXTURL,
        ButtonType.DOWNLOAD, ButtonType.CLOSE] ∧
    resolvedTypes initialHeap (some ⟨some ButtonsStrategy.DEFAULT, b⟩) =
      Except.ok [ButtonType.CLOSE] ∧
    resolvedTypes initialHeap (some ⟨some ButtonsStrategy.unrecognized, b⟩) =
      Except.ok [ButtonType.CLOSE] :=
  ⟨rfl, rfl, rfl, rfl, rfl⟩

/-- C7: initialization with an absent buttonsConfig, or with a config
whose strategy field is absent, fails with the mandatory-strategy
configuration error and resolves no button list. -/
theorem ngOnInit_strategy_mandatory (h : Heap) (b : Option (List Nat)) :
    ngOnInit h none = Except.error ConfigError.strategyMandatory ∧
    ngOnInit h (some ⟨none, b⟩) = Except.error ConfigError.strategyMandatory :=
  ⟨rfl, rfl⟩

/-- C5: resolving CUSTOM with an absent buttons field yields the empty
list; when every supplied button type is one of the six whitelisted
members (CUSTOM included) the caller-supplied list is returned unchanged
in order; when some supplied button has the unknown type the resolution
fails with the custom-type configuration error and produces no list. -/
theorem initCustomButtons_validation (h : Heap) (s : Option ButtonsStrategy)
    (refs : List Nat) :
    initCustomButtons h ⟨s, none⟩ = Except.ok [] ∧
    ((∀ r ∈ refs, (h.btnAt r).type ≠ ButtonType.unknown) →
      initCustomButtons h ⟨s, some refs⟩ = Except.ok refs) ∧
    ((∃ r ∈ refs, (h.btnAt r).type = ButtonType.unknown) →
      initCustomButtons h ⟨s, some refs⟩ = Except.error ConfigError.unknownCustomType) := by
  refine ⟨rfl, ?_, ?_⟩
  · intro hall
    simp only [initCustomButtons, Option.getD_some]
    split
    · rfl
    · rename_i hcond
      exfalso
      apply hcond
      rw [List.all_eq_true]
      intro x hx
      exact (whitelist_contains_iff (Heap.btnAt h x).type).mpr (hall x hx)
  · rintro ⟨r, hr, htype⟩
    simp only [initCustomButtons, Option.getD_some]
    split
    · rename_i hcond
      exfalso
      rw [List.all_eq_true] at hcond
      exact (whitelist_contains_iff (Heap.btnAt h r).type).mp (hcond r hr) htype
    · rfl

/-- Witness for C5 at concrete inputs: a config with no buttons field,
one whose buttons are all whitelisted (a CUSTOM-typed one included), and
one holding an unknown-typed button. -/
theorem initCustomButtons_validation_witness :
    initCustomButtons customHeap ⟨some ButtonsStrategy.CUSTOM, none⟩ = Except.ok [] ∧
    initCustomButtons customHeap ⟨some ButtonsStrategy.CUSTOM, some [0, 2]⟩ =
      Except.ok [0, 2] ∧
    initCustomButtons customHeap ⟨some ButtonsStrategy.CUSTOM, some [0, 1]⟩ =
      Except.error ConfigError.unknownCustomType :=
  ⟨(initCustomButtons_validation customHeap (some ButtonsStrategy.CUSTOM) []).1,
   (initCustomButtons_validation customHeap (some ButtonsStrategy.CUSTOM) [0, 2]).2.1
     (by decide),
   (initCustomButtons_validation customHeap (some ButtonsStrategy.CUSTOM) [0, 1]).2.2
     ⟨1, by decide, by decide⟩⟩

/-- C4 evaluated at the failing input: when the target emitter object is
missing, the router logs the diagnostic, but on an activation event it
still calls emit on the missing emitter, so a TypeError escapes instead
of the call returning without emission; only on a non-activation event
does the call end with the diagnostic logged and nothing emitted. -/
theorem trigger_missing_emitter_throws :
    triggerOnMouseAndKeyboard Channel.close false RawEvent.activate closeBtnObj 0
      (Payload.flag true) = TriggerResult.thrown true ∧
    triggerOnMouseAndKeyboard Channel.close false RawEvent.other closeBtnObj 0
      (Payload.flag true) = TriggerResult.noEmission true :=
  ⟨rfl, rfl⟩

/-- C2: for every non-null activation event, onEvent emits exactly one
ButtonEvent on exactly the channel the declared button type selects
(REFRESH on refresh, DELETE on delete, DOWNLOAD on download, CLOSE on
close, CUSTOM on customEmit, EXTURL on navigate), carrying the call's
index and button and payload true on every channel except EXTURL, where
the payload is the external URL; a button whose type is none of the six
members makes onEvent fail with the unknown-type configuration error and
no channel emits. -/
theorem onEvent_dispatch_by_type (img : Option Image) (b : BtnObj) (i : Nat) :
    (b.type = ButtonType.REFRESH →
      onEvent allPresent img b i (some RawEvent.activate) =
        OnEventResult.triggered (TriggerResult.emitted false Channel.refresh ⟨i, b, Payload.flag true⟩)) ∧
    (b.type = ButtonType.DELETE →
      onEvent allPresent img b i (some RawEvent.activate) =
        OnEventResult.triggered (TriggerResult.emitted false Channel.delete ⟨i, b, Payload.flag true⟩)) ∧
    (b.type = ButtonType.DOWNLOAD →
      onEvent allPresent img b i (some RawEvent.activate) =
        OnEventResult.triggered (TriggerResult.emitted false Channel.download ⟨i, b, Payload.flag true⟩)) ∧
    (b.type = ButtonType.CLOSE →
      onEvent allPresent img b i (some RawEvent.activate) =
        OnEventResult.triggered (TriggerResult.emitted false Channel.close ⟨i, b, Payload.flag true⟩)) ∧
    (b.type = ButtonType.CUSTOM →
      onEvent allPresent img b i (some RawEvent.activate) =
        OnEventResult.triggered (TriggerResult.emitted false Channel.customEmit ⟨i, b, Payload.flag true⟩)) ∧
    (∀ u : String, b.type = ButtonType.EXTURL → img = some ⟨some u⟩ → u ≠ "" →
      onEvent allPresent img b i (some RawEvent.activate) =
        OnEventResult.triggered (TriggerResult.emitted false Channel.navigate ⟨i, b, Payload.url u⟩)) ∧
    (b.type = ButtonType.unknown → ∀ e : RawEvent,
      onEvent allPresent img b i (some e) = OnEventResult.configError ConfigError.unknownButtonType ∧
      (onEvent allPresent img b i (some e)).emissions = []) := by
  refine ⟨?_, ?_, ?_, ?_, ?_, ?_, ?_⟩
  · intro ht
    simp [onEvent, ht, triggerOnMouseAndKeyboard, handleImageEvent, allPresent]
  · intro ht
    simp [onEvent, ht, triggerOnMouseAndKeyboard, handleImageEvent, allPresent]
  · intro ht
    simp [onEvent, ht, triggerOnMouseAndKeyboard, handleImageEvent, allPresent]
  · intro ht
    simp [onEvent, ht, triggerOnMouseAndKeyboard, handleImageEvent, allPresent]
  · intro ht
    simp [onEvent, ht, triggerOnMouseAndKeyboard, handleImageEvent, allPresent]
  · intro u ht himg hu
    subst himg
    simp [onEvent, ht, hu, triggerOnMouseAndKeyboard, handleImageEvent, allPresent]
  · intro ht e
    constructor
    · simp [onEvent, ht]
    · simp [onEvent, ht, OnEventResult.emissions]

/-- Witness for C2 at concrete inputs: one button of each declared type
dispatched on a concrete activation event, and an unknown-typed button
failing on a concrete event. -/
theorem onEvent_dispatch_by_type_witness :
    onEvent allPresent none refreshBtnObj 0 (some RawEvent.activate) =
      OnEventResult.triggered (TriggerResult.emitted false Channel.refresh ⟨0, refreshBtnObj, Payload.flag true⟩) ∧
    onEvent allPresent none deleteBtnObj 1 (some RawEvent.activate) =
      OnEventResult.triggered (TriggerResult.emitted false Channel.delete ⟨1, deleteBtnObj, Payload.flag true⟩) ∧
    onEvent allPresent none downloadBtnObj 3 (some RawEvent.activate) =
      OnEventResult.triggered (TriggerResult.emitted false Channel.download ⟨3, downloadBtnObj, Payload.flag true⟩) ∧
    onEvent allPresent none closeBtnObj 4 (some RawEvent.activate) =
      OnEventResult.triggered (TriggerResult.emitted false Channel.close ⟨4, closeBtnObj, Payload.flag true⟩) ∧
    onEvent allPresent none customBtnObj 5 (some RawEvent.activate) =
      OnEventResult.triggered (TriggerResult.emitted false Channel.customEmit ⟨5, customBtnObj, Payload.flag true⟩) ∧
    onEvent allPresent (some testImage) exturlBtnObj 2 (some RawEvent.activate) =
      OnEventResult.triggered (TriggerResult.emitted false Channel.navigate
        ⟨2, exturlBtnObj, Payload.url "https://example.com/x"⟩) ∧
    onEvent allPresent none unknownBtnObj 9 (some RawEvent.activate) =
      OnEventResult.configError ConfigError.unknownButtonType :=
  ⟨(onEvent_dispatch_by_type none refreshBtnObj 0).1 rfl,
   (onEvent_dispatch_by_type none deleteBtnObj 1).2.1 rfl,
   (onEvent_dispatch_by_type none downloadBtnObj 3).2.2.1 rfl,
   (onEvent_dispatch_by_type none closeBtnObj 4).2.2.2.1 rfl,
   (onEvent_dispatch_by_type none customBtnObj 5).2.2.2.2.1 rfl,
   (onEvent_dispatch_by_type (some testImage) exturlBtnObj 2).2.2.2.2.2.1
     "https://example.com/x" rfl rfl (by decide),
   ((onEvent_dispatch_by_type none unknownBtnObj 9).2.2.2.2.2.2 rfl RawEvent.activate).1⟩

/-- C3: an onEvent call on an EXTURL button is a silent no-op when the
image is absent or its external URL is absent or empty, raising no error
and emitting on no channel; when the external URL is a non-empty string
and the event is a recognized activation, exactly one emission occurs on
the navigate channel with the URL as payload. -/
theorem onEvent_exturl_url_gating (em : Emitters) (b : BtnObj) (i : Nat) (e : RawEvent) :
    b.type = ButtonType.EXTURL →
    (onEvent em none b i (some e) = OnEventResult.noop) ∧
    (onEvent em (some ⟨none⟩) b i (some e) = OnEventResult.noop) ∧
    (onEvent em (some ⟨some ""⟩) b i (some e) = OnEventResult.noop) ∧
    (∀ u : String, u ≠ "" →
      onEvent allPresent (some ⟨some u⟩) b i (some RawEvent.activate) =
        OnEventResult.triggered (TriggerResult.emitted false Channel.navigate ⟨i, b, Payload.url u⟩)) := by
  intro ht
  refine ⟨?_, ?_, ?_, ?_⟩
  · simp [onEvent, ht]
  · simp [onEvent, ht]
  · simp [onEvent, ht]
  · intro u hu
    simp [onEvent, ht, hu, triggerOnMouseAndKeyboard, handleImageEvent, allPresent]

/-- Witness for C3 at concrete inputs: the EXTURL default button with no
image, with a URL-less image, with an empty-URL image, and with a
concrete non-empty URL. -/
theorem onEvent_exturl_url_gating_witness :
    onEvent allPresent none exturlBtnObj 0 (some RawEvent.activate) = OnEventResult.noop ∧
    onEvent allPresent (some ⟨none⟩) exturlBtnObj 0 (some RawEvent.activate) = OnEventResult.noop ∧
    onEvent allPresent (some ⟨some ""⟩) exturlBtnObj 0 (some RawEvent.activate) = OnEventResult.noop ∧
    onEvent allPresent (some ⟨some "https://example.com/x"⟩) exturlBtnObj 0 (some RawEvent.activate) =
      OnEventResult.triggered (TriggerResult.emitted false Channel.navigate
        ⟨0, exturlBtnObj, Payload.url "https://example.com/x"⟩) := by
  have H := onEvent_exturl_url_gating allPresent exturlBtnObj 0 RawEvent.activate rfl
  exact ⟨H.1, H.2.1, H.2.2.1, H.2.2.2 "https://example.com/x" (by decide)⟩

/-- C8: no channel receives an emission unless the raw event is non-null
and classified as an activation: a null event makes the call a complete
no-op, and a non-null event classified as other than activation produces
no emission on any channel, whatever the button and emitters. -/
theorem onEvent_needs_activation (em : Emitters) (img : Option Image) (b : BtnObj) (i : Nat) :
    onEvent em img b i none = OnEventResult.noop ∧
    (onEvent em img b i (some RawEvent.other)).emissions = [] := by
  constructor
  · rfl
  · cases hb : b.type
    case EXTURL =>
      rcases img with _ | ⟨_ | u⟩
      · simp [onEvent, hb, OnEventResult.emissions]
      · simp [onEvent, hb, OnEventResult.emissions]
      · rcases eq_or_ne u "" with hu | hu <;>
          simp [onEvent, hb, hu, triggerOnMouseAndKeyboard, handleImageEvent, NEXT,
            OnEventResult.emissions]
    all_goals
      simp [onEvent, hb, triggerOnMouseAndKeyboard, handleImageEvent, NEXT,
        OnEventResult.emissions]

/-- C10: onEvent inspects the declared button type before classifying
the raw event: for every non-null event, the activation and the
non-activation one alike, an unknown-typed button raises the
configuration error and an EXTURL button with no usable URL returns
silently, the outcome independent of which event was passed. -/
theorem onEvent_type_before_classification (em : Emitters) (img : Option Image)
    (b : BtnObj) (i : Nat) (e : RawEvent) :
    (b.type = ButtonType.unknown →
      onEvent em img b i (some e) = OnEventResult.configError ConfigError.unknownButtonType) ∧
    (b.type = ButtonType.EXTURL →
      (img = none ∨ img = some ⟨none⟩ ∨ img = some ⟨some ""⟩) →
      onEvent em img b i (some e) = OnEventResult.noop) := by
  constructor
  · intro ht
    simp [onEvent, ht]
  · intro ht himg
    rcases himg with h | h | h <;> subst h <;> simp [onEvent, ht]

/-- Witness for C10 at concrete inputs: the unknown-typed button and the
URL-less EXTURL cases on the non-activation event. -/
theorem onEvent_type_before_classification_witness :
    onEvent allPresent none unknownBtnObj 0 (some RawEvent.other) =
      OnEventResult.configError ConfigError.unknownButtonType ∧
    onEvent allPresent (some ⟨none⟩) exturlBtnObj 0 (some RawEvent.other) =
      OnEventResult.noop :=
  ⟨(onEvent_type_before_classification allPresent none unknownBtnObj 0 RawEvent.other).1 rfl,
   (onEvent_type_before_classification allPresent (some ⟨none⟩) exturlBtnObj 0 RawEvent.other).2
     rfl (Or.inr (Or.inl rfl))⟩

/-- C6: for every input list of N button references, addButtonIds
returns a list of N fresh references whose objects carry id = i at every
position i and otherwise copy the input object at that position; the
objects the input references point at are untouched, and assigning a
field of an output object leaves every input object unchanged. -/
theorem addButtonIds_identity_assignment (h : Heap) (refs : List Nat)
    (hv : ∀ r ∈ refs, r < h.btns.length) :
    ((addButtonIds h refs).2.length = refs.length) ∧
    (∀ i, i < refs.length →
      ((addButtonIds h refs).1.btnAt ((addButtonIds h refs).2.getD i 0)).id = some i) ∧
    (∀ i, i < refs.length →
      (addButtonIds h refs).1.btnAt ((addButtonIds h refs).2.getD i 0) =
        { h.btnAt (refs.getD i 0) with id := some i }) ∧
    (∀ r ∈ refs, (addButtonIds h refs).1.btnAt r = h.btnAt r) ∧
    (∀ i, i < refs.length → ∀ r ∈ refs, ∀ v,
      (heapSetId (addButtonIds h refs).1 ((addButtonIds h refs).2.getD i 0) v).btnAt r =
        (addButtonIds h refs).1.btnAt r) := by
  refine ⟨addButtonIds_length h refs hv, ?_, ?_, ?_, ?_⟩
  · intro i hi
    rw [addButtonIds_btnAt h refs i hv hi]
  · intro i hi
    exact addButtonIds_btnAt h refs i hv hi
  · intro r hr
    exact addButtonIds_preserves h refs r hv (hv r hr)
  · intro i hi r hr v
    apply heapSetId_btnAt_ne
    rw [addButtonIds_ref h refs i hv hi]
    have := hv r hr
    omega

/-- Witness for C6 at a concrete input: the FULL default list over the
initial heap, with its length, the id stamped at position 2, the
untouched input object, and an id assignment on an output object leaving
the input object alone. -/
theorem addButtonIds_identity_assignment_witness :
    (addButtonIds initialHeap fullButtonsDefault).2.length = 5 ∧
    ((addButtonIds initialHeap fullButtonsDefault).1.btnAt
      ((addButtonIds initialHeap fullButtonsDefault).2.getD 2 0)).id = some 2 ∧
    (addButtonIds initialHeap fullButtonsDefault).1.btnAt 3 = initialHeap.btnAt 3 ∧
    (heapSetId (addButtonIds initialHeap fullButtonsDefault).1
      ((addButtonIds initialHeap fullButtonsDefault).2.getD 0 0) (some 42)).btnAt 3 =
      (addButtonIds initialHeap fullButtonsDefault).1.btnAt 3 := by
  have H := addButtonIds_identity_assignment initialHeap fullButtonsDefault (by decide)
  exact ⟨H.1, H.2.1 2 (by decide), H.2.2.2.1 3 (by decide),
    H.2.2.2.2 0 (by decide) 3 (by decide) (some 42)⟩

/-- C9: the copy addButtonIds makes is shallow: every output object
shares its sizeRef with the corresponding input object, and all built-in
default buttons share the one defaultSize object at address 0; hence
mutating the height of the size object reached through an output
descriptor of the FULL list is visible through the input descriptor,
while assigning the top-level id field of that output object leaves the
input object exactly as initially allocated. -/
theorem addButtonIds_shallow_copy (h : Heap) (refs : List Nat)
    (hv : ∀ r ∈ refs, r < h.btns.length) :
    (∀ i, i < refs.length →
      ((addButtonIds h refs).1.btnAt ((addButtonIds h refs).2.getD i 0)).sizeRef =
        (h.btnAt (refs.getD i 0)).sizeRef) ∧
    (∀ r ∈ fullButtonsDefault, (initialHeap.btnAt r).sizeRef = 0) ∧
    Heap.sizeThrough
        (heapSetSizeHeight (addButtonIds initialHeap fullButtonsDefault).1
          ((addButtonIds initialHeap fullButtonsDefault).1.btnAt
             ((addButtonIds initialHeap fullButtonsDefault).2.getD 0 0)).sizeRef 99)
        (fullButtonsDefault.getD 0 0) = ⟨99, 30, "px"⟩ ∧
    (heapSetId (addButtonIds initialHeap fullButtonsDefault).1
        ((addButtonIds initialHeap fullButtonsDefault).2.getD 0 0) (some 42)).btnAt
        (fullButtonsDefault.getD 0 0) = initialHeap.btnAt 3 := by
  refine ⟨?_, by decide, by decide, by decide⟩
  intro i hi
  rw [addButtonIds_btnAt h refs i hv hi]

/-- Witness for C9 at a concrete input: the sizeRef of the first stamped
copy of the FULL list equals the sizeRef of the first input descriptor. -/
theorem addButtonIds_shallow_copy_witness :
    ((addButtonIds initialHeap fullButtonsDefault).1.btnAt
      ((addButtonIds initialHeap fullButtonsDefault).2.getD 0 0)).sizeRef =
      (initialHeap.btnAt (fullButtonsDefault.getD 0 0)).sizeRef := by
  have H := addButtonIds_shallow_copy initialHeap fullButtonsDefault (by decide)
  exact H.1 0 (by decide)
